import Mathlib

/-!
Verification of the data_formatter_for_RAG backend (src/backend/main.py and
src/backend/extractor.py) against its natural-language specification.

The Python code is shallowly embedded: pure string manipulation becomes Lean
functions on `String` / `List Char`; the external Anthropic completion
endpoint becomes an oracle function `String → Nat → ApiOutcome`; Python
exceptions raised by external parsers become `Except` values; the ReportLab
canvas becomes an explicit layout state (pages of (y-position, text) pairs).
-/

/-! ## Python string primitives used by the code -/

/-- Embedding of Python's `sub in s` substring test: does `l` begin with `pre`? -/
def listStarts : List Char → List Char → Bool
  | [], _ => true
  | _ :: _, [] => false
  | a :: as, b :: bs => a == b && listStarts as bs

/-- Does `sub` occur as a contiguous run inside `l`? -/
def listHasInfix (sub : List Char) : List Char → Bool
  | [] => listStarts sub []
  | b :: bs => listStarts sub (b :: bs) || listHasInfix sub bs

/-- Embedding of Python's `sub in s` on strings. -/
def strContains (s sub : String) : Bool :=
  listHasInfix sub.toList s.toList

/-- Embedding of Python's `str.lower()` (ASCII case folding, which is all the
code compares). -/
def pyLower (s : String) : String :=
  (s.toList.map Char.toLower).asString

/-- Embedding of Python's `s.split(sep)` fold step for a single-character
separator. -/
def pySplitStep (sep : Char) (acc : List String × List Char) (c : Char) :
    List String × List Char :=
  if c = sep then (acc.1 ++ [acc.2.reverse.asString], []) else (acc.1, c :: acc.2)

/-- Embedding of Python's `content.split(sep)` with a one-character
separator: always yields at least one (possibly empty) field. -/
def pySplit (sep : Char) (s : String) : List String :=
  let f := s.toList.foldl (pySplitStep sep) ([], [])
  f.1 ++ [f.2.reverse.asString]

/-- Embedding of Python's `str(x)` on an optional error message:
`str(None) = "None"`. -/
def pyStrOfOpt : Option String → String
  | none => "None"
  | some s => s

/-! ## AI invoker: `call_claude_api` in src/backend/main.py

The Anthropic client call `client.messages.create(model, max_tokens, ...)`
is abstracted as an oracle from (model name, max_tokens) to an outcome:
success carrying `response.content[0].text`, or one of the three exception
classes the code distinguishes (`anthropic.NotFoundError`,
`anthropic.BadRequestError`, any other `Exception`), each carrying `str(e)`.
-/

inductive ApiOutcome where
  | success (text : String)
  | notFound (msg : String)
  | badRequest (msg : String)
  | otherError (msg : String)
deriving DecidableEq

/-- The fixed model preference list `models_to_try` in `call_claude_api`. -/
def models_to_try : List String :=
  ["claude-3-5-sonnet-20241022",
   "claude-3-5-sonnet-20240620",
   "claude-3-opus-20240229",
   "claude-3-sonnet-20240229",
   "claude-3-haiku-20240307"]

/-- `max_tokens_limit = 8192 if "3-5" in model_name else 4096`. -/
def maxTokensLimit (model : String) : Nat :=
  if strContains model "3-5" then 8192 else 4096

/-- The `for model_name in models_to_try` fallback loop of `call_claude_api`,
tracking `last_error` exactly as the code does. The result pairs the returned
string with the trace of completion attempts actually issued, each as
(model name, max_tokens used), in order. -/
def tryModels (api : String → Nat → ApiOutcome) :
    List String → Option String → String × List (String × Nat)
  | [], lastError =>
    ("Error: No working Claude model found. Last error: " ++ pyStrOfOpt lastError, [])
  | m :: rest, _lastError =>
    let mt := maxTokensLimit m
    match api m mt with
    | .success t => (t, [(m, mt)])
    | .notFound e =>
      let r := tryModels api rest (some e)
      (r.1, (m, mt) :: r.2)
    | .badRequest e =>
      if strContains e "max_tokens" = true ∧ 4096 < mt then
        match api m 4096 with
        | .success t => (t, [(m, mt), (m, 4096)])
        | .notFound r2 =>
          let r := tryModels api rest (some r2)
          (r.1, (m, mt) :: (m, 4096) :: r.2)
        | .badRequest r2 =>
          let r := tryModels api rest (some r2)
          (r.1, (m, mt) :: (m, 4096) :: r.2)
        | .otherError r2 =>
          let r := tryModels api rest (some r2)
          (r.1, (m, mt) :: (m, 4096) :: r.2)
      else
        let r := tryModels api rest (some e)
        (r.1, (m, mt) :: r.2)
    | .otherError e =>
      ("Error with model " ++ m ++ ": " ++ e, [(m, mt)])

/-- `call_claude_api`: returns `None` (the use-mock sentinel) when no
`ANTHROPIC_API_KEY` is configured, otherwise runs the fallback loop over the
fixed model list with `last_error = None`. -/
def call_claude_api (apiKey : Option String) (api : String → Nat → ApiOutcome) :
    Option String :=
  match apiKey with
  | none => none
  | some _ => some (tryModels api models_to_try none).1

/-! ## Helper predicates on outcomes -/

/-- The message carried by a failed outcome (`str(e)`), `none` on success. -/
def outcomeErr : ApiOutcome → Option String
  | .success _ => none
  | .notFound e => some e
  | .badRequest e => some e
  | .otherError e => some e

/-- Outcome is one of the two exception classes the loop continues past. -/
def isNfOrBr : ApiOutcome → Bool
  | .notFound _ => true
  | .badRequest _ => true
  | _ => false

/-- Outcome is a successful completion. -/
def isSuccess : ApiOutcome → Bool
  | .success _ => true
  | _ => false

/-- The `last_error` the loop holds after a candidate `m` has been attempted
without success: the not-found message, the bad-request message, or (when the
token-ceiling retry fired) the retry's failure message. -/
def candLastErr (api : String → Nat → ApiOutcome) (m : String) : String :=
  match api m (maxTokensLimit m) with
  | .success t => t
  | .notFound e => e
  | .otherError e => e
  | .badRequest e =>
    if strContains e "max_tokens" = true ∧ 4096 < maxTokensLimit m then
      match api m 4096 with
      | .success t => t
      | .notFound r2 => r2
      | .badRequest r2 => r2
      | .otherError r2 => r2
    else e

theorem tryModels_notFound_chain (api : String → Nat → ApiOutcome)
    (errf : String → String) (t lastm : String)
    (hlast : api lastm (maxTokensLimit lastm) = .success t) :
    ∀ (init : List String), (∀ m ∈ init, api m (maxTokensLimit m) = .notFound (errf m)) →
      ∀ (le : Option String),
      tryModels api (init ++ [lastm]) le =
        (t, (init ++ [lastm]).map (fun m => (m, maxTokensLimit m))) := by
  intro init
  induction init with
  | nil => intro _ le; simp [tryModels, hlast]
  | cons m init ih =>
    intro h le
    have hm : api m (maxTokensLimit m) = .notFound (errf m) := h m (by simp)
    have ih2 := ih (fun x hx => h x (by simp [hx])) (some (errf m))
    simp [tryModels, hm, ih2]

/-- Claim C1: if the completion request raises a model-not-found error for
each of the first N-1 candidates and returns content for the last, the
invoker returns that last candidate's text, and the attempt trace is exactly
each of the N candidates once, in the configured order, at its own token
ceiling (so no candidate is retried). -/
theorem claim_C1 (api : String → Nat → ApiOutcome) (init : List String)
    (lastm : String) (errf : String → String) (t : String)
    (hfail : ∀ m ∈ init, api m (maxTokensLimit m) = .notFound (errf m))
    (hlast : api lastm (maxTokensLimit lastm) = .success t) :
    (tryModels api (init ++ [lastm]) none).1 = t ∧
    (tryModels api (init ++ [lastm]) none).2 =
      (init ++ [lastm]).map (fun m => (m, maxTokensLimit m)) := by
  rw [tryModels_notFound_chain api errf t lastm hlast init hfail none]
  exact ⟨rfl, rfl⟩

/-- Oracle for the C1 witness: every model except Haiku is unknown. -/
def c1Api : String → Nat → ApiOutcome := fun m _ =>
  if m = "claude-3-haiku-20240307" then .success "answer" else .notFound ("no model " ++ m)

theorem claim_C1_witness :
    (tryModels c1Api
        (["claude-3-opus-20240229", "claude-3-sonnet-20240229"] ++
          ["claude-3-haiku-20240307"]) none).1 = "answer" ∧
    (tryModels c1Api
        (["claude-3-opus-20240229", "claude-3-sonnet-20240229"] ++
          ["claude-3-haiku-20240307"]) none).2 =
      (["claude-3-opus-20240229", "claude-3-sonnet-20240229"] ++
          ["claude-3-haiku-20240307"]).map (fun m => (m, maxTokensLimit m)) :=
  claim_C1 c1Api ["claude-3-opus-20240229", "claude-3-sonnet-20240229"]
    "claude-3-haiku-20240307" (fun m => "no model " ++ m) "answer"
    (by decide) (by decide)

/-- Claim C2: a candidate whose first attempt fails bad-request with a
message mentioning the rejected token ceiling, while its ceiling was above
the 4096 floor, is retried exactly once at 4096; when the retry also fails,
its message becomes the recorded last error and the loop moves to the next
candidate. The trace shows exactly the two attempts on that candidate
followed by whatever the remaining candidates produce. -/
theorem claim_C2 (api : String → Nat → ApiOutcome) (m : String)
    (rest : List String) (le : Option String) (e r : String)
    (h1 : api m (maxTokensLimit m) = .badRequest e)
    (h2 : strContains e "max_tokens" = true)
    (h3 : 4096 < maxTokensLimit m)
    (h4 : outcomeErr (api m 4096) = some r) :
    tryModels api (m :: rest) le =
      ((tryModels api rest (some r)).1,
       (m, maxTokensLimit m) :: (m, 4096) :: (tryModels api rest (some r)).2) := by
  cases hr : api m 4096 with
  | success t => rw [hr] at h4; simp [outcomeErr] at h4
  | notFound r2 =>
    rw [hr] at h4; simp only [outcomeErr, Option.some.injEq] at h4
    subst h4; simp [tryModels, h1, h2, h3, hr]
  | badRequest r2 =>
    rw [hr] at h4; simp only [outcomeErr, Option.some.injEq] at h4
    subst h4; simp [tryModels, h1, h2, h3, hr]
  | otherError r2 =>
    rw [hr] at h4; simp only [outcomeErr, Option.some.injEq] at h4
    subst h4; simp [tryModels, h1, h2, h3, hr]

/-- Oracle for the C2 witness: the 3.5 model rejects its 8192 ceiling, the
4096 retry still fails, and no other model exists. -/
def c2Api : String → Nat → ApiOutcome := fun _ tk =>
  if tk = 8192 then .badRequest "max_tokens too large" else .badRequest "still rejected"

theorem claim_C2_witness :
    tryModels c2Api ("claude-3-5-sonnet-20241022" :: []) none =
      ((tryModels c2Api [] (some "still rejected")).1,
       ("claude-3-5-sonnet-20241022", maxTokensLimit "claude-3-5-sonnet-20241022") ::
        ("claude-3-5-sonnet-20241022", 4096) ::
        (tryModels c2Api [] (some "still rejected")).2) :=
  claim_C2 c2Api "claude-3-5-sonnet-20241022" [] none
    "max_tokens too large" "still rejected" (by decide) (by decide) (by decide) (by decide)

/-- Claim C4: any exception outside the not-found and bad-request classes on
a candidate's first attempt makes the invoker return
"Error with model <id>: <message>" at once; the trace stops at that single
attempt, so no retry and no later candidate is issued. -/
theorem claim_C4 (api : String → Nat → ApiOutcome) (m : String)
    (rest : List String) (le : Option String) (e : String)
    (h : api m (maxTokensLimit m) = .otherError e) :
    tryModels api (m :: rest) le =
      ("Error with model " ++ m ++ ": " ++ e, [(m, maxTokensLimit m)]) := by
  simp [tryModels, h]

theorem claim_C4_witness :
    tryModels (fun _ _ => ApiOutcome.otherError "connection reset")
        ("claude-3-5-sonnet-20241022" :: ["claude-3-5-sonnet-20240620"]) none =
      ("Error with model " ++ "claude-3-5-sonnet-20241022" ++ ": " ++ "connection reset",
       [("claude-3-5-sonnet-20241022", maxTokensLimit "claude-3-5-sonnet-20241022")]) :=
  claim_C4 (fun _ _ => ApiOutcome.otherError "connection reset")
    "claude-3-5-sonnet-20241022" ["claude-3-5-sonnet-20240620"] none
    "connection reset" (by decide)

theorem tryModels_exhausted (api : String → Nat → ApiOutcome) (lastm : String)
    (hl1 : isNfOrBr (api lastm (maxTokensLimit lastm)) = true)
    (hl2 : isSuccess (api lastm 4096) = false) :
    ∀ (init : List String),
      (∀ m ∈ init, isNfOrBr (api m (maxTokensLimit m)) = true ∧
        isSuccess (api m 4096) = false) →
      ∀ (le : Option String),
      (tryModels api (init ++ [lastm]) le).1 =
        "Error: No working Claude model found. Last error: " ++ candLastErr api lastm := by
  intro init
  induction init with
  | nil =>
    intro _ le
    cases hfst : api lastm (maxTokensLimit lastm) with
    | success t => rw [hfst] at hl1; simp [isNfOrBr] at hl1
    | otherError e => rw [hfst] at hl1; simp [isNfOrBr] at hl1
    | notFound e => simp [tryModels, hfst, candLastErr, pyStrOfOpt]
    | badRequest e =>
      by_cases hc : strContains e "max_tokens" = true ∧ 4096 < maxTokensLimit lastm
      · cases hrt : api lastm 4096 with
        | success t => rw [hrt] at hl2; simp [isSuccess] at hl2
        | notFound r2 => simp [tryModels, hfst, hc, hrt, candLastErr, pyStrOfOpt]
        | badRequest r2 => simp [tryModels, hfst, hc, hrt, candLastErr, pyStrOfOpt]
        | otherError r2 => simp [tryModels, hfst, hc, hrt, candLastErr, pyStrOfOpt]
      · simp [tryModels, hfst, hc, candLastErr, pyStrOfOpt]
  | cons m init ih =>
    intro h le
    have hm := h m (by simp)
    have ih2 := ih (fun x hx => h x (by simp [hx]))
    cases hfst : api m (maxTokensLimit m) with
    | success t => rw [hfst] at hm; simp [isNfOrBr] at hm
    | otherError e => rw [hfst] at hm; simp [isNfOrBr] at hm
    | notFound e => simp [tryModels, hfst, ih2]
    | badRequest e =>
      by_cases hc : strContains e "max_tokens" = true ∧ 4096 < maxTokensLimit m
      · cases hrt : api m 4096 with
        | success t => rw [hrt] at hm; simp [isSuccess] at hm
        | notFound r2 => simp [tryModels, hfst, hc, hrt, ih2]
        | badRequest r2 => simp [tryModels, hfst, hc, hrt, ih2]
        | otherError r2 => simp [tryModels, hfst, hc, hrt, ih2]
      · simp [tryModels, hfst, hc, ih2]

/-- Claim C3, corrected. As stated the claim is false: the exhaustion string
the code builds is "Error: No working Claude model found. Last error: ...",
which does not contain the claimed substring "no working model found" (see
the counterexample). Amended: when every candidate has been attempted
without any returning content, the invoker returns (never raises) exactly
"Error: No working Claude model found. Last error: <message>", where
<message> is the last recorded error, namely the final failure message of
the last candidate. -/
theorem claim_C3_amended (api : String → Nat → ApiOutcome)
    (init : List String) (lastm : String)
    (h : ∀ m ∈ init ++ [lastm], isNfOrBr (api m (maxTokensLimit m)) = true ∧
      isSuccess (api m 4096) = false) :
    (tryModels api (init ++ [lastm]) none).1 =
      "Error: No working Claude model found. Last error: " ++ candLastErr api lastm :=
  tryModels_exhausted api lastm (h lastm (by simp)).1 (h lastm (by simp)).2
    init (fun m hm => h m (by simp [hm])) none

theorem claim_C3_witness :
    (tryModels (fun m _ => ApiOutcome.notFound ("unknown " ++ m))
        (["claude-3-opus-20240229"] ++ ["claude-3-haiku-20240307"]) none).1 =
      "Error: No working Claude model found. Last error: " ++
        candLastErr (fun m _ => ApiOutcome.notFound ("unknown " ++ m))
          "claude-3-haiku-20240307" :=
  claim_C3_amended (fun m _ => ApiOutcome.notFound ("unknown " ++ m))
    ["claude-3-opus-20240229"] "claude-3-haiku-20240307" (by decide)

/-- Counterexample to claim C3 as stated: with a single candidate that fails
not-found, every candidate has been attempted without content, yet the
result string does not contain the substring "no working model found" (the
code capitalizes "No" and inserts "Claude"). -/
theorem claim_C3_counterexample :
    strContains
      (tryModels (fun _ _ => ApiOutcome.notFound "model gone") ["claude-3-opus-20240229"] none).1
      "no working model found" = false := by decide

/-! ## Extractor: src/backend/extractor.py

The external parsers (pypdf `PdfReader`, python-docx `Document`, python-pptx
`Presentation`) together with the per-item text reads inside each `try`
block are abstracted as an environment: for each path either the parse
succeeds with the document's textual content, or an exception with message
`str(e)` escapes and is caught at the extractor boundary. A PPTX shape
carries `some text` when `hasattr(shape, "text")` holds, else `none`. -/

structure FileSystem where
  pdf : String → Except String (List String)
  docx : String → Except String (List String)
  pptx : String → Except String (List (List (Option String)))

/-- Embedding of Python's `os.path.splitext(p)[1]` on POSIX paths: the suffix
from the last dot of the basename, unless every character of the basename
before that dot is itself a dot. -/
def lastIdxOf (c : Char) (l : List Char) : Option Nat :=
  l.enum.foldl (fun acc p => if p.2 = c then some p.1 else acc) none

def splitextExt (p : String) : String :=
  let l := p.toList
  let sepIdx : Int := match lastIdxOf '/' l with | none => -1 | some n => (n : Int)
  let dotIdx : Int := match lastIdxOf '.' l with | none => -1 | some n => (n : Int)
  if sepIdx < dotIdx ∧
      ((l.drop (sepIdx + 1).toNat).take (dotIdx - sepIdx - 1).toNat).any (fun ch => ch ≠ '.')
  then (l.drop dotIdx.toNat).asString
  else ""

/-- Page-concatenation loop of `extract_text_from_pdf`:
`text += page.extract_text() + "\n"` starting from "". -/
def pdfJoin (pages : List String) : String :=
  pages.foldl (fun text pg => text ++ pg ++ "\n") ""

/-- Paragraph join of `extract_text_from_docx`: `"\n".join(...)`. -/
def docxJoin (paras : List String) : String :=
  String.intercalate "\n" paras

/-- Slide/shape loop of `extract_text_from_pptx`: `text += shape.text + "\n"`
for each shape that has a `text` attribute, in document order. -/
def pptxJoin (slides : List (List (Option String))) : String :=
  slides.foldl
    (fun text shapes =>
      shapes.foldl (fun t sh => match sh with | some s => t ++ s ++ "\n" | none => t) text)
    ""

def extract_text_from_pdf (fs : FileSystem) (p : String) : String :=
  match fs.pdf p with
  | .ok pages => pdfJoin pages
  | .error e => "Error extracting PDF: " ++ e

def extract_text_from_docx (fs : FileSystem) (p : String) : String :=
  match fs.docx p with
  | .ok paras => docxJoin paras
  | .error e => "Error extracting DOCX: " ++ e

def extract_text_from_pptx (fs : FileSystem) (p : String) : String :=
  match fs.pptx p with
  | .ok slides => pptxJoin slides
  | .error e => "Error extracting PPTX: " ++ e

/-- `extract_text`: dispatch on the lowercased extension. -/
def extract_text (fs : FileSystem) (p : String) : String :=
  let ext := pyLower (splitextExt p)
  if ext = ".pdf" then extract_text_from_pdf fs p
  else if ext = ".docx" then extract_text_from_docx fs p
  else if ext = ".pptx" then extract_text_from_pptx fs p
  else "Unsupported file format: " ++ ext

/-- Claim C5: on any path with a supported extension, extract_text is total
(it returns a string) and its value is either exactly
"Error extracting <FORMAT>: <message>" — in particular it begins with the
literal "Error extracting" — when the underlying parse fails, or the
format's extracted document text when it succeeds. -/
theorem claim_C5 (fs : FileSystem) (p : String)
    (h : pyLower (splitextExt p) ∈ [".pdf", ".docx", ".pptx"]) :
    (∃ fmt msg, fmt ∈ ["PDF", "DOCX", "PPTX"] ∧
       extract_text fs p = "Error extracting " ++ fmt ++ ": " ++ msg ∧
       ∃ rest, extract_text fs p = "Error extracting" ++ rest) ∨
    (∃ pages, fs.pdf p = .ok pages ∧ extract_text fs p = pdfJoin pages) ∨
    (∃ paras, fs.docx p = .ok paras ∧ extract_text fs p = docxJoin paras) ∨
    (∃ slides, fs.pptx p = .ok slides ∧ extract_text fs p = pptxJoin slides) := by
  simp only [List.mem_cons, List.not_mem_nil, or_false] at h
  rcases h with h | h | h
  · cases hp : fs.pdf p with
    | ok pages =>
      exact Or.inr (Or.inl ⟨pages, rfl, by simp [extract_text, h, extract_text_from_pdf, hp]⟩)
    | error e =>
      have heq : extract_text fs p = "Error extracting PDF: " ++ e := by
        simp [extract_text, h, extract_text_from_pdf, hp]
      refine Or.inl ⟨"PDF", e, by simp, ?_, " PDF: " ++ e, ?_⟩
      · rw [heq]; exact congrArg (fun s => s ++ e) (by decide)
      · rw [heq, ← String.append_assoc]; exact congrArg (fun s => s ++ e) (by decide)
  · cases hp : fs.docx p with
    | ok paras =>
      exact Or.inr (Or.inr (Or.inl
        ⟨paras, rfl, by simp [extract_text, h, extract_text_from_docx, hp]⟩))
    | error e =>
      have heq : extract_text fs p = "Error extracting DOCX: " ++ e := by
        simp [extract_text, h, extract_text_from_docx, hp]
      refine Or.inl ⟨"DOCX", e, by simp, ?_, " DOCX: " ++ e, ?_⟩
      · rw [heq]; exact congrArg (fun s => s ++ e) (by decide)
      · rw [heq, ← String.append_assoc]; exact congrArg (fun s => s ++ e) (by decide)
  · cases hp : fs.pptx p with
    | ok slides =>
      exact Or.inr (Or.inr (Or.inr
        ⟨slides, rfl, by simp [extract_text, h, extract_text_from_pptx, hp]⟩))
    | error e =>
      have heq : extract_text fs p = "Error extracting PPTX: " ++ e := by
        simp [extract_text, h, extract_text_from_pptx, hp]
      refine Or.inl ⟨"PPTX", e, by simp, ?_, " PPTX: " ++ e, ?_⟩
      · rw [heq]; exact congrArg (fun s => s ++ e) (by decide)
      · rw [heq, ← String.append_assoc]; exact congrArg (fun s => s ++ e) (by decide)

/-- Environment for the extractor witnesses: every parse raises. -/
def fsErr : FileSystem :=
  ⟨fun _ => .error "broken xref table",
   fun _ => .error "bad zip header",
   fun _ => .error "bad zip header"⟩

theorem claim_C5_witness :
    (∃ fmt msg, fmt ∈ ["PDF", "DOCX", "PPTX"] ∧
       extract_text fsErr "doc.pdf" = "Error extracting " ++ fmt ++ ": " ++ msg ∧
       ∃ rest, extract_text fsErr "doc.pdf" = "Error extracting" ++ rest) ∨
    (∃ pages, fsErr.pdf "doc.pdf" = .ok pages ∧
       extract_text fsErr "doc.pdf" = pdfJoin pages) ∨
    (∃ paras, fsErr.docx "doc.pdf" = .ok paras ∧
       extract_text fsErr "doc.pdf" = docxJoin paras) ∨
    (∃ slides, fsErr.pptx "doc.pdf" = .ok slides ∧
       extract_text fsErr "doc.pdf" = pptxJoin slides) :=
  claim_C5 fsErr "doc.pdf" (by decide)

/-- Claim C6: on any path whose lowercased extension is not one of the three
supported ones, extract_text returns exactly "Unsupported file format: <ext>"
with <ext> the lowercased extension, leading dot included (empty when the
filename has no extension). -/
theorem claim_C6 (fs : FileSystem) (p : String)
    (h : pyLower (splitextExt p) ∉ [".pdf", ".docx", ".pptx"]) :
    extract_text fs p = "Unsupported file format: " ++ pyLower (splitextExt p) := by
  simp only [List.mem_cons, List.not_mem_nil, or_false, not_or] at h
  obtain ⟨h1, h2, h3⟩ := h
  simp [extract_text, h1, h2, h3]

theorem claim_C6_witness :
    extract_text fsErr "archive.ZIP" =
      "Unsupported file format: " ++ pyLower (splitextExt "archive.ZIP") :=
  claim_C6 fsErr "archive.ZIP" (by decide)

/-! ## Exporter: the `/download` handler `download_result` in src/backend/main.py

The ReportLab canvas is modelled by its observable layout: the sequence of
pages, each page the list of (y-position, text) pairs drawn on it, in draw
order. `letter` is (612, 792) points; the code uses `height - 40` as the top
cursor, decrements `y` by 12 per line, and page-breaks when `y < 40`. -/

/-- `line[:90] + ("..." if len(line) > 90 else "")`. -/
def truncLine (line : String) : String :=
  (line.toList.take 90).asString ++ (if 90 < line.length then "..." else "")

structure LayoutState where
  y : Int
  current : List (Int × String)
  pages : List (List (Int × String))

/-- One iteration of the `for line in lines` loop: page-break first when the
cursor has crossed the bottom margin, then draw the truncated line at the
cursor and decrement by the 12-unit line height. -/
def emitLine (st : LayoutState) (line : String) : LayoutState :=
  let st1 :=
    if st.y < 40 then LayoutState.mk (792 - 40) [] (st.pages ++ [st.current]) else st
  LayoutState.mk (st1.y - 12) (st1.current ++ [(st1.y, truncLine line)]) st1.pages

/-- Cursor state at `text_object = c.beginText(40, height - 40)`. -/
def initLayout : LayoutState := ⟨792 - 40, [], []⟩

/-- The whole `fmt == "pdf"` branch: split the content on newlines, run the
layout loop, and finalize the page in progress (`c.drawText; c.save`). -/
def renderPdf (content : String) : List (List (Int × String)) :=
  let fin := (pySplit '\n' content).foldl emitLine initLayout
  fin.pages ++ [fin.current]

/-- Layout invariant maintained by the loop: positions on a page are
752, 740, 752 - 12*i, ...; a finalized page holds exactly 60 lines and the
page in progress at most 60. -/
def pageOk (pg : List (Int × String)) : Prop :=
  ∀ i, (h : i < pg.length) → (pg.get ⟨i, h⟩).1 = 752 - 12 * (i : Int)

def stOk (st : LayoutState) : Prop :=
  st.y = 752 - 12 * (st.current.length : Int) ∧
  st.current.length ≤ 60 ∧
  pageOk st.current ∧
  ∀ pg ∈ st.pages, pageOk pg ∧ pg.length = 60

/-- All texts drawn so far, in draw order. -/
def emittedTexts (st : LayoutState) : List String :=
  (st.pages.flatten ++ st.current).map (fun e => e.2)

theorem pageOk_push (pg : List (Int × String)) (s : String)
    (hpg : pageOk pg) (y : Int) (hy : y = 752 - 12 * (pg.length : Int)) :
    pageOk (pg ++ [(y, s)]) := by
  intro i hi
  rw [List.length_append, List.length_singleton] at hi
  rcases Nat.lt_succ_iff_lt_or_eq.mp hi with hlt | heq
  · rw [List.get_append i hlt]
    exact hpg i hlt
  · subst heq
    simp [hy]

theorem emitLine_ok (st : LayoutState) (line : String) (h : stOk st) :
    stOk (emitLine st line) ∧
    emittedTexts (emitLine st line) = emittedTexts st ++ [truncLine line] := by
  obtain ⟨hy, hle, hcur, hpages⟩ := h
  by_cases hbr : st.y < 40
  · have h60 : st.current.length = 60 := by omega
    constructor
    · refine ⟨?_, ?_, ?_, ?_⟩
      · simp [emitLine, hbr]
      · simp [emitLine, hbr]
      · simp only [emitLine, hbr, if_pos]
        exact pageOk_push [] (truncLine line) (fun i hi => by simp at hi) _ (by simp)
      · intro pg hpg
        simp only [emitLine, hbr, if_pos, List.mem_append, List.mem_singleton] at hpg
        rcases hpg with hpg | hpg
        · exact hpages pg hpg
        · subst hpg; exact ⟨hcur, h60⟩
    · simp [emitLine, hbr, emittedTexts]
  · have hlt60 : st.current.length < 60 := by
      rcases Nat.lt_or_ge st.current.length 60 with h | h
      · exact h
      · exfalso; have : st.current.length = 60 := by omega
        rw [this] at hy; omega
    constructor
    · refine ⟨?_, ?_, ?_, ?_⟩
      · simp only [emitLine, hbr, ite_false, eq_self_iff_true, not_false_iff,
          List.length_append, List.length_singleton]
        push_cast
        omega
      · simp [emitLine, hbr]; omega
      · simp only [emitLine, hbr, if_neg, not_false_iff]
        exact pageOk_push st.current (truncLine line) hcur st.y hy
      · intro pg hpg
        simp only [emitLine, hbr, if_neg, not_false_iff] at hpg
        exact hpages pg hpg
    · simp [emitLine, hbr, emittedTexts]

theorem foldl_emitLine_ok (lines : List String) :
    ∀ (st : LayoutState), stOk st →
      stOk (lines.foldl emitLine st) ∧
      emittedTexts (lines.foldl emitLine st) =
        emittedTexts st ++ lines.map truncLine := by
  induction lines with
  | nil => intro st h; exact ⟨h, by simp⟩
  | cons line lines ih =>
    intro st h
    obtain ⟨h1, h2⟩ := emitLine_ok st line h
    obtain ⟨h3, h4⟩ := ih (emitLine st line) h1
    exact ⟨h3, by simp [h4, h2]⟩

theorem asString_toList (s : String) : s.toList.asString = s := rfl

theorem stOk_initLayout : stOk initLayout :=
  ⟨by decide, by decide, fun i hi => absurd hi (by simp [initLayout]),
   by simp [initLayout]⟩

theorem emittedTexts_initLayout : emittedTexts initLayout = [] := rfl

/-- Claim C7: the texts drawn into the PDF are, in order, exactly the
newline-split lines of the content passed through the truncation rule:
a line of at most 90 characters is emitted unchanged, a longer line is
emitted as its first 90 characters followed by "...". -/
theorem claim_C7 (content : String) :
    ((renderPdf content).flatten.map (fun e => e.2)) =
      (pySplit '\n' content).map truncLine ∧
    ∀ line : String,
      (line.length ≤ 90 → truncLine line = line) ∧
      (90 < line.length → truncLine line = (line.toList.take 90).asString ++ "...") := by
  constructor
  · have h2 := (foldl_emitLine_ok (pySplit '\n' content) initLayout stOk_initLayout).2
    rw [emittedTexts_initLayout, List.nil_append] at h2
    simp only [emittedTexts] at h2
    simp only [renderPdf, List.flatten_append, List.flatten_cons, List.flatten_nil,
      List.append_nil, List.map_append]
    rw [← List.map_append]
    exact h2
  · intro line
    constructor
    · intro hle
      show (line.toList.take 90).asString ++ (if 90 < line.length then "..." else "") = line
      rw [if_neg (by omega), List.take_of_length_le (l := line.toList) hle,
        asString_toList, String.append_empty]
    · intro hgt
      simp [truncLine, hgt]

theorem claim_C7_witness :
    (("short line" : String).length ≤ 90 ∧ truncLine "short line" = "short line") ∧
    ((renderPdf "a\nb").flatten.map (fun e => e.2)) =
      (pySplit '\n' "a\nb").map truncLine :=
  ⟨⟨by decide, ((claim_C7 "x").2 "short line").1 (by decide)⟩, (claim_C7 "a\nb").1⟩

/-- Claim C8: pagination invariant. On every rendered page the k-th drawn
line sits at cursor position 752 - 12k (so the cursor starts at
792 - 40 = 752 on each page, decrements by 12 per line, and resets on page
break), every drawn line sits at or above the 40-unit bottom margin, and
content with more than 60 lines (the capacity of one page) yields more than
one page. -/
theorem claim_C8 (content : String) :
    (∀ pg ∈ renderPdf content, ∀ i, (h : i < pg.length) →
        (pg.get ⟨i, h⟩).1 = 752 - 12 * (i : Int) ∧ 40 ≤ (pg.get ⟨i, h⟩).1) ∧
    (60 < (pySplit '\n' content).length → 1 < (renderPdf content).length) := by
  obtain ⟨⟨hy, hlen, hcur, hpages⟩, hemit⟩ :=
    foldl_emitLine_ok (pySplit '\n' content) initLayout stOk_initLayout
  rw [emittedTexts_initLayout, List.nil_append] at hemit
  constructor
  · intro pg hpg i hi
    have hbound : pg.length ≤ 60 ∧ pageOk pg := by
      simp only [renderPdf, List.mem_append, List.mem_singleton] at hpg
      rcases hpg with hpg | hpg
      · obtain ⟨hok, h60⟩ := hpages pg hpg
        exact ⟨le_of_eq h60, hok⟩
      · subst hpg
        exact ⟨hlen, hcur⟩
    have heq := hbound.2 i hi
    have hile : i ≤ 59 := by omega
    refine ⟨heq, ?_⟩
    rw [heq]
    have hc : (i : Int) ≤ 59 := by exact_mod_cast hile
    omega
  · intro hlines
    by_contra hno
    push_neg at hno
    have hplen : (renderPdf content).length =
        ((pySplit '\n' content).foldl emitLine initLayout).pages.length + 1 := by
      simp [renderPdf]
    have hp0 : ((pySplit '\n' content).foldl emitLine initLayout).pages = [] := by
      rw [hplen] at hno
      exact List.length_eq_zero.mp (by omega)
    have hcount := congrArg List.length hemit
    simp only [emittedTexts, hp0, List.flatten_nil, List.nil_append,
      List.length_map] at hcount
    omega

set_option maxRecDepth 20000 in
theorem claim_C8_witness :
    60 < (pySplit '\n' (String.intercalate "\n" (List.replicate 61 "x"))).length ∧
    1 < (renderPdf (String.intercalate "\n" (List.replicate 61 "x"))).length :=
  ⟨by decide,
   (claim_C8 (String.intercalate "\n" (List.replicate 61 "x"))).2 (by decide)⟩

/-- Byte payload of a `/download` response: verbatim text for md/txt, the
rendered page layout for pdf. -/
inductive Payload where
  | text (s : String)
  | pdfPages (pages : List (List (Int × String)))
deriving DecidableEq

/-- The `/download` handler `download_result`: lowercases the requested
format, dispatches on it, and raises the 400 "Unsupported format" client
error on anything else. A response is (payload, media type,
Content-Disposition header value). -/
def download_result (content fmtRaw filename : String) :
    Except String (Payload × String × String) :=
  let fmt := pyLower fmtRaw
  if fmt = "md" then
    .ok (.text content, "text/markdown", "attachment; filename=" ++ filename ++ ".md")
  else if fmt = "txt" then
    .ok (.text content, "text/plain", "attachment; filename=" ++ filename ++ ".txt")
  else if fmt = "pdf" then
    .ok (.pdfPages (renderPdf content), "application/pdf",
      "attachment; filename=" ++ filename ++ ".pdf")
  else .error "Unsupported format"

/-- Claim C9: exporting any content x under format "md" passes x through
unmodified as the payload, with media type "text/markdown" and suggested
filename f.md; likewise "txt" with "text/plain" and f.txt — the text-format
export is the identity on the content. -/
theorem claim_C9 (x f : String) :
    download_result x "md" f =
      .ok (.text x, "text/markdown", "attachment; filename=" ++ f ++ ".md") ∧
    download_result x "txt" f =
      .ok (.text x, "text/plain", "attachment; filename=" ++ f ++ ".txt") := by
  constructor
  · simp only [download_result]
    rw [show pyLower "md" = "md" from by decide, if_pos rfl]
  · simp only [download_result]
    rw [show pyLower "txt" = "txt" from by decide, if_neg (by decide), if_pos rfl]

/-! ## Upload handler: the mock-substitution branch of `upload_files` -/

/-- Python truthiness of a string: `not s` holds exactly for `""`. -/
def pyTruthy (s : String) : Bool := !(s == "")

/-- The simulated response `upload_files` builds when `not ai_response`:
embeds the extracted character count and the two placeholder data points. -/
def mockResponse (filename : String) (n : Nat) : String :=
  "\n# Extracted Structure for " ++ filename ++ " (SIMULATION)\n\n" ++
  "(No valid ANTHROPIC_API_KEY found in backend/.env, so this is a simulated response.)\n\n" ++
  "## Summary\nThe document contains " ++ toString n ++ " characters.\n\n" ++
  "## Mock Data Points\n- **Category 1**: Simulation Data A\n- **Category 2**: Simulation Data B\n"

/-- The `if not ai_response:` substitution in `upload_files`: `ai_response`
is `None` (the no-key sentinel) or the invoker's string; any falsy value —
`None` or the empty string — is replaced by the simulated response. -/
def chooseAiResponse (filename extracted : String) (ai : Option String) : String :=
  match ai with
  | none => mockResponse filename extracted.length
  | some s => if pyTruthy s then s else mockResponse filename extracted.length

/-- Claim C10: the upload handler substitutes the simulated response for any
falsy invoker result — both the no-key `None` sentinel (hence for
`call_claude_api` with no key, whatever the endpoint would do) and a
successful empty-string completion — and the two cases yield the identical
string, so a caller cannot tell them apart; any nonempty result is passed
through untouched. -/
theorem claim_C10 (f extracted : String) :
    (∀ api, chooseAiResponse f extracted (call_claude_api none api) =
      mockResponse f extracted.length) ∧
    chooseAiResponse f extracted (some "") = mockResponse f extracted.length ∧
    (∀ api, chooseAiResponse f extracted (call_claude_api none api) =
      chooseAiResponse f extracted (some "")) ∧
    ∀ s : String, s ≠ "" → chooseAiResponse f extracted (some s) = s := by
  refine ⟨fun api => rfl, rfl, fun api => rfl, ?_⟩
  intro s hs
  simp [chooseAiResponse, pyTruthy, hs]

theorem claim_C10_witness :
    ("Structured data." : String) ≠ "" ∧
    chooseAiResponse "report.pdf" "some document text" (some "Structured data.") =
      "Structured data." :=
  ⟨by decide,
   (claim_C10 "report.pdf" "some document text").2.2.2 "Structured data." (by decide)⟩
